import Mathlib

/-!
# Verification of the Real-time Monitor System (RMS)

Shallow embedding of the monitoring engine in `RealTimeMonitor.py` and the
helpers in `utils.py`, together with proofs of the specification claims.

Modelling conventions:
* Python floats are modelled as `ℚ` (the code performs only field
  arithmetic; no claim depends on floating-point rounding).
* Python dicts used as records with possibly-missing keys are modelled as
  structures with `Option` fields; `d.get(k, default)` becomes `.getD`.
* The registry dict `monitored_accounts` is modelled as an association list
  `List (Nat × Monitors)` in insertion order, matching CPython's
  insertion-ordered dict iteration.
* Wall-clock instants (`datetime.now()`) are modelled as an abstract `Nat`
  passed in as a `now` parameter.
* Broker RPC calls (`Services.MT5ManagerActions`, external to this
  repository) are modelled as a record of functions returning `RpcResult`:
  `.ok v` is a normal return (with `none` / `[]` standing for Python falsy
  results) and `.exn` is a raised exception.
-/

/-- Result of one broker RPC: a returned value or a raised exception. -/
inductive RpcResult (α : Type) where
  | ok (v : α)
  | exn
  deriving DecidableEq, Repr

/-- Position side. The broker encodes it in the `type` field of a position
mapping; none of the aggregation code in `RealTimeMonitor.py` reads it, so it
is kept as an abstract two-valued tag (spec §3: buy / sell). -/
inductive Side where
  | buy
  | sell
  deriving DecidableEq, Repr

/-- One open-position mapping as returned by the broker and stored in
`PositionMonitor.positions`.  `symbol` and `volume` are `Option` because the
code reads them with `pos.get('symbol', …)` / `pos.get('volume', 0.0)`.
`login_id` models the `'login_id'` key that
`RealTimeMonitorSystem.get_positions_by_symbol` writes into the stored dict
(absent until that happens).  Other opaque broker fields are not read by any
code under verification and are omitted. -/
structure Position where
  symbol : Option String
  volume : Option ℚ
  side : Side
  login_id : Option Nat
  deriving DecidableEq, Repr

/-- One closed-trade mapping; its fields are opaque to the engine code the
claims target (only list length and storage are used), so it is abstract. -/
structure ClosedTrade where
  tag : Nat
  deriving DecidableEq, Repr

/-- The account-details mapping returned by
`manager.get_account_details(login_id)`; every key may be absent, matching
the `account_info.get(key, default)` reads in `AccountMonitor.update`. -/
structure AccountInfo where
  balance : Option ℚ
  equity : Option ℚ
  margin : Option ℚ
  free_margin : Option ℚ
  margin_level : Option ℚ
  profit : Option ℚ
  group : Option String
  leverage : Option Nat
  deriving DecidableEq, Repr

/-- The broker manager (`Services.MT5ManagerActions`), external to this
repository: per-account RPC reads.  `get_account_details` returning
`.ok none` models a falsy (empty/None) mapping; `get_open_positions`
returning `.ok []` models a falsy (empty/None) list.  The `from_date`
argument of `get_closed_trades` does not affect the engine logic under
verification and is absorbed into the function. -/
structure Manager where
  get_account_details : Nat → RpcResult (Option AccountInfo)
  get_open_positions : Nat → RpcResult (List Position)
  get_closed_trades : Nat → RpcResult (List ClosedTrade)

/- ### utils.py -/

/-- Embeds `calculate_margin_level` (utils.py lines 35-39). -/
def calculate_margin_level (equity margin : ℚ) : ℚ :=
  if margin = 0 then 0 else (equity / margin) * 100

/- ### AccountMonitor (RealTimeMonitor.py lines 20-78) -/

/-- Per-account details state (`AccountMonitor.__init__`). -/
structure AccountMonitor where
  login_id : Nat
  balance : ℚ
  equity : ℚ
  margin : ℚ
  free_margin : ℚ
  margin_level : ℚ
  profit : ℚ
  last_update : Option Nat
  status : String
  group : String
  leverage : Nat
  deriving DecidableEq, Repr

/-- Embeds `AccountMonitor.__init__(login_id)`. -/
def AccountMonitor.init (login_id : Nat) : AccountMonitor :=
  { login_id := login_id, balance := 0, equity := 0, margin := 0,
    free_margin := 0, margin_level := 0, profit := 0, last_update := none,
    status := "active", group := "", leverage := 0 }

/-- The dictionary produced by `AccountMonitor.to_dict`. -/
structure AccountDict where
  login_id : Nat
  balance : ℚ
  equity : ℚ
  margin : ℚ
  free_margin : ℚ
  margin_level : ℚ
  profit : ℚ
  group : String
  leverage : Nat
  status : String
  last_update : Option Nat
  deriving DecidableEq, Repr

/-- Embeds `AccountMonitor.to_dict` (lines 64-78). -/
def AccountMonitor.to_dict (a : AccountMonitor) : AccountDict :=
  { login_id := a.login_id, balance := a.balance, equity := a.equity,
    margin := a.margin, free_margin := a.free_margin,
    margin_level := a.margin_level, profit := a.profit, group := a.group,
    leverage := a.leverage, status := a.status, last_update := a.last_update }

/-- Embeds `AccountMonitor.update(manager)` (lines 36-62).  The broker call's three
outcomes: a truthy mapping (all fields overwritten from it, `status` set to
`"active"`, `last_update` to now, returns the dict), a falsy result
(`status := "unavailable"`, returns `None`), or a raised exception (caught;
`status := "error"`, returns `None`).  In the two failure branches only
`status` is assigned. -/
def AccountMonitor.update (a : AccountMonitor)
    (details : RpcResult (Option AccountInfo)) (now : Nat) :
    AccountMonitor × Option AccountDict :=
  match details with
  | .ok (some info) =>
      let a' : AccountMonitor :=
        { login_id := a.login_id,
          balance := info.balance.getD 0,
          equity := info.equity.getD 0,
          margin := info.margin.getD 0,
          free_margin := info.free_margin.getD 0,
          margin_level := info.margin_level.getD 0,
          profit := info.profit.getD 0,
          group := info.group.getD "",
          leverage := info.leverage.getD 0,
          last_update := some now,
          status := "active" }
      (a', some a'.to_dict)
  | .ok none => ({ a with status := "unavailable" }, none)
  | .exn => ({ a with status := "error" }, none)

/- ### PositionMonitor (RealTimeMonitor.py lines 81-127) -/

/-- Per-account open-positions state (`PositionMonitor.__init__`). -/
structure PositionMonitor where
  login_id : Nat
  positions : List Position
  last_update : Option Nat
  deriving DecidableEq, Repr

/-- Embeds `PositionMonitor.__init__(login_id)`. -/
def PositionMonitor.init (login_id : Nat) : PositionMonitor :=
  { login_id := login_id, positions := [], last_update := none }

/-- Embeds `PositionMonitor.update(manager)` (lines 89-104): a truthy (non-empty)
list overwrites the slice and stamps `last_update`; a falsy result clears the
slice; a raised exception (caught) leaves the state unchanged and returns
`[]`. -/
def PositionMonitor.update (p : PositionMonitor)
    (res : RpcResult (List Position)) (now : Nat) :
    PositionMonitor × List Position :=
  match res with
  | .ok ps =>
      if ps.isEmpty then ({ p with positions := [] }, [])
      else ({ p with positions := ps, last_update := some now }, ps)
  | .exn => (p, [])

/-- Embeds `PositionMonitor.get_positions_by_symbol(symbol)` (lines 106-108):
`[pos for pos in self.positions if pos.get('symbol') == symbol]`.  A dict
without a `'symbol'` key yields `None`, which never equals the string
argument. -/
def PositionMonitor.get_positions_by_symbol (p : PositionMonitor)
    (symbol : String) : List Position :=
  p.positions.filter (fun pos => pos.symbol = some symbol)

/-- Embeds `PositionMonitor.get_total_volume_by_symbol` (lines 110-117).  The Python
`defaultdict(float)` built by `volume_by_symbol[symbol] += volume` is
modelled as a total function `String → ℚ` with default `0`, folded over the
positions exactly as the loop does.  Note that the loop adds the raw
`pos.get('volume', 0.0)` — the position's `type`/side is never consulted. -/
def PositionMonitor.get_total_volume_by_symbol (p : PositionMonitor) :
    String → ℚ :=
  p.positions.foldl
    (fun m pos => fun s =>
      if pos.symbol.getD "" = s then m s + pos.volume.getD 0 else m s)
    (fun _ => 0)

/-- The dictionary produced by `PositionMonitor.to_dict` (lines 119-127).
The `symbols` entry is `list(set(...))`, whose iteration order CPython does
not specify; it is rendered as deduplication (no claim depends on its
order). -/
structure PositionsDict where
  login_id : Nat
  positions : List Position
  position_count : Nat
  symbols : List String
  last_update : Option Nat
  deriving DecidableEq, Repr

/-- Embeds `PositionMonitor.to_dict` (lines 119-127). -/
def PositionMonitor.to_dict (p : PositionMonitor) : PositionsDict :=
  { login_id := p.login_id, positions := p.positions,
    position_count := p.positions.length,
    symbols := (p.positions.map (fun pos => pos.symbol.getD "")).dedup,
    last_update := p.last_update }

/- ### TradeMonitor (RealTimeMonitor.py lines 130-184) -/

/-- Per-account closed-trades state (`TradeMonitor.__init__`).  The
`from_date` field only parameterises the broker call and is absorbed into
the `Manager` model. -/
structure TradeMonitor where
  login_id : Nat
  trades : List ClosedTrade
  last_update : Option Nat
  deriving DecidableEq, Repr

/-- Embeds `TradeMonitor.__init__(login_id)`. -/
def TradeMonitor.init (login_id : Nat) : TradeMonitor :=
  { login_id := login_id, trades := [], last_update := none }

/-- Embeds `TradeMonitor.update(manager)` (lines 139-154): same shape as
`PositionMonitor.update`. -/
def TradeMonitor.update (t : TradeMonitor)
    (res : RpcResult (List ClosedTrade)) (now : Nat) :
    TradeMonitor × List ClosedTrade :=
  match res with
  | .ok ts =>
      if ts.isEmpty then ({ t with trades := [] }, [])
      else ({ t with trades := ts, last_update := some now }, ts)
  | .exn => (t, [])

/- ### RealTimeMonitorSystem registry (RealTimeMonitor.py lines 187-245) -/

/-- The per-account monitors dict created by `add_account`. -/
structure Monitors where
  account : AccountMonitor
  positions : PositionMonitor
  trades : TradeMonitor
  deriving DecidableEq, Repr

/-- The fresh monitors dict built at `add_account(login_id)`
(lines 231-235). -/
def Monitors.init (login_id : Nat) : Monitors :=
  { account := AccountMonitor.init login_id,
    positions := PositionMonitor.init login_id,
    trades := TradeMonitor.init login_id }

/-- Embeds `RealTimeMonitorSystem.stats` (lines 208-213). -/
structure Stats where
  total_updates : Nat
  last_update : Option Nat
  errors : Nat
  monitored_count : Nat
  deriving DecidableEq, Repr

/-- Engine state.  `manager`, `running`, the thread handle and the callback
list do not participate in the claims under verification (callback
exceptions are caught without touching `stats`, lines 293-297) and are kept
outside the state: the manager is passed to the tick as a parameter. -/
structure RealTimeMonitorSystem where
  update_interval : Nat
  monitored_accounts : List (Nat × Monitors)
  stats : Stats
  deriving DecidableEq, Repr

/-- Embeds `RealTimeMonitorSystem.__init__(update_interval)` (lines 192-213). -/
def RealTimeMonitorSystem.init (update_interval : Nat) :
    RealTimeMonitorSystem :=
  { update_interval := update_interval, monitored_accounts := [],
    stats := { total_updates := 0, last_update := none, errors := 0,
               monitored_count := 0 } }

/-- The registry's current key list (`self.monitored_accounts` keys, in dict
insertion order). -/
def RealTimeMonitorSystem.keys (sys : RealTimeMonitorSystem) : List Nat :=
  sys.monitored_accounts.map Prod.fst

/-- Embeds `login_id in self.monitored_accounts` (dict key membership). -/
def RealTimeMonitorSystem.contains (sys : RealTimeMonitorSystem)
    (login_id : Nat) : Bool :=
  sys.monitored_accounts.any (fun kv => kv.1 = login_id)

/-- Embeds `RealTimeMonitorSystem.add_account(login_id)` (lines 227-237): insert a
fresh monitors dict if the key is absent and refresh
`stats['monitored_count']`; otherwise do nothing.  Performs no broker call
(the manager is not even an argument). -/
def RealTimeMonitorSystem.add_account (sys : RealTimeMonitorSystem)
    (login_id : Nat) : RealTimeMonitorSystem :=
  if sys.contains login_id then sys
  else
    let accs := sys.monitored_accounts ++ [(login_id, Monitors.init login_id)]
    { sys with monitored_accounts := accs,
               stats := { sys.stats with monitored_count := accs.length } }

/-- Embeds `RealTimeMonitorSystem.remove_account(login_id)` (lines 239-245): delete
the entry if present and refresh `stats['monitored_count']`; otherwise do
nothing.  `del` on a dict removes the unique entry with that key; on the
association list (whose keys are unique by construction) this is the
filter below. -/
def RealTimeMonitorSystem.remove_account (sys : RealTimeMonitorSystem)
    (login_id : Nat) : RealTimeMonitorSystem :=
  if sys.contains login_id then
    let accs := sys.monitored_accounts.filter (fun kv => ¬ kv.1 = login_id)
    { sys with monitored_accounts := accs,
               stats := { sys.stats with monitored_count := accs.length } }
  else sys

/- ### Aggregator queries (RealTimeMonitor.py lines 363-388) -/

/-- Traversal underlying `RealTimeMonitorSystem.get_positions_by_symbol`
(lines 363-372).  The Python loop filters each account's positions and then
executes `pos['login_id'] = login_id` on every *alias* of a stored dict
before appending it, so the call both returns the tagged positions and
mutates the registry's stored entries.  The functional rendering: the
result accumulates the matching positions with `login_id` set, and each
account's stored slice is rewritten with `login_id` set on exactly the
matching entries. -/
def positionsBySymbolAux (symbol : String) :
    List (Nat × Monitors) → List Position × List (Nat × Monitors)
  | [] => ([], [])
  | (login_id, mon) :: rest =>
      let tagged := (mon.positions.get_positions_by_symbol symbol).map
        (fun pos => { pos with login_id := some login_id })
      let storedPositions := mon.positions.positions.map
        (fun pos => if pos.symbol = some symbol then
            { pos with login_id := some login_id } else pos)
      let mon' := { mon with
        positions := { mon.positions with positions := storedPositions } }
      let r := positionsBySymbolAux symbol rest
      (tagged ++ r.1, (login_id, mon') :: r.2)

/-- Embeds `RealTimeMonitorSystem.get_positions_by_symbol(symbol)` (lines 363-372),
as a state transformer: the returned list and the registry state after the
call. -/
def RealTimeMonitorSystem.get_positions_by_symbol
    (sys : RealTimeMonitorSystem) (symbol : String) :
    List Position × RealTimeMonitorSystem :=
  let r := positionsBySymbolAux symbol sys.monitored_accounts
  (r.1, { sys with monitored_accounts := r.2 })

/-- The `volume` component of `RealTimeMonitorSystem.get_total_exposure_by_symbol`
(lines 374-388), read at a symbol.  The `defaultdict` of records is modelled
pointwise as a total function with default `0`: the loop
`exposure[symbol]['volume'] += volume` over `volume_by_symbol.items()` adds,
at each key `s`, exactly `volume_by_symbol` evaluated at `s` (keys the
account never touched contribute `0`).  The `accounts` and `positions`
components are not referenced by any claim and are not modelled. -/
def RealTimeMonitorSystem.get_total_exposure_volume
    (sys : RealTimeMonitorSystem) : String → ℚ :=
  sys.monitored_accounts.foldl
    (fun m kv => fun s => m s + kv.2.positions.get_total_volume_by_symbol s)
    (fun _ => 0)

/-- Embeds `RealTimeMonitorSystem.get_total_exposure_by_symbol` as a state
transformer: it builds a fresh local `defaultdict` and writes nothing back
to the registry. -/
def RealTimeMonitorSystem.get_total_exposure_by_symbol
    (sys : RealTimeMonitorSystem) :
    (String → ℚ) × RealTimeMonitorSystem :=
  (sys.get_total_exposure_volume, sys)

/- ### One tick: `_update_all_accounts` (RealTimeMonitor.py lines 251-297) -/

/-- The `trades_summary` part of one update-frame entry (lines 278-282). -/
structure TradesSummary where
  trade_count : Nat
  last_update : Option Nat
  deriving DecidableEq, Repr

/-- One entry of the per-tick `accounts_data` list (lines 275-283). -/
structure FrameEntry where
  account : AccountDict
  positions : PositionsDict
  trades_summary : TradesSummary
  deriving DecidableEq, Repr

/-- The loop body of `_update_all_accounts` for one registry entry
(lines 261-283): details update, positions update, trades update on the
5-tick cadence (`total_updates` is the pre-tick counter — it is incremented
only after the loop), and the conditional frame append (`if account_data:`;
`to_dict` always returns a truthy non-empty dict, so the test is exactly
"details fetch succeeded").  Returns the updated monitors, the optional
frame entry, and whether the closed-trades fetch was attempted.  All broker
exceptions are caught *inside* the three `update` methods (lines 59-62,
102-104, 152-154), so no exception escapes this body and the
`except` clause at lines 285-287 (the only writer of `stats['errors']` in a
tick) is never reached by a sub-operation failure. -/
def refreshOne (mgr : Manager) (total_updates : Nat) (now : Nat)
    (login_id : Nat) (mon : Monitors) :
    Monitors × Option FrameEntry × Bool :=
  let au := mon.account.update (mgr.get_account_details login_id) now
  let pu := mon.positions.update (mgr.get_open_positions login_id) now
  let tu : TradeMonitor × List ClosedTrade × Bool :=
    if total_updates % 5 = 0 then
      let t := mon.trades.update (mgr.get_closed_trades login_id) now
      (t.1, t.2, true)
    else (mon.trades, mon.trades.trades, false)
  let mon' : Monitors :=
    { account := au.1, positions := pu.1, trades := tu.1 }
  let entry : Option FrameEntry :=
    au.2.map (fun ad =>
      { account := ad, positions := pu.1.to_dict,
        trades_summary := { trade_count := tu.2.1.length,
                            last_update := tu.1.last_update } })
  (mon', entry, tu.2.2)

/-- The registry traversal of `_update_all_accounts` (lines 257-283): the
loop visits entries in dict order, replaces each entry's monitors in place,
appends frame entries in visit order, and (for the cadence analysis) records
which accounts had a closed-trades fetch attempted. -/
def processAccounts (mgr : Manager) (total_updates : Nat) (now : Nat) :
    List (Nat × Monitors) →
    List (Nat × Monitors) × List FrameEntry × List Nat
  | [] => ([], [], [])
  | (login_id, mon) :: rest =>
      let r := refreshOne mgr total_updates now login_id mon
      let rest' := processAccounts mgr total_updates now rest
      ((login_id, r.1) :: rest'.1,
       (match r.2.1 with | some e => e :: rest'.2.1 | none => rest'.2.1),
       (if r.2.2 then login_id :: rest'.2.2 else rest'.2.2))

/-- Result of one tick: the new engine state, the `accounts_data` frame list
handed to the callbacks, and the accounts whose closed-trades fetch was
attempted this tick. -/
structure TickOut where
  sys : RealTimeMonitorSystem
  frame : List FrameEntry
  tradesFetched : List Nat
  deriving Repr

/-- Embeds `RealTimeMonitorSystem._update_all_accounts` (lines 251-297) with an
initialized manager: run the per-account loop, then increment
`stats['total_updates']` and stamp `stats['last_update']` (lines 289-290).
`stats['errors']` is untouched: the loop body raises no exception (every
broker failure is caught inside the monitor `update` methods) and the
callback handler (lines 293-297) catches without counting. -/
def RealTimeMonitorSystem.update_all_accounts (sys : RealTimeMonitorSystem)
    (mgr : Manager) (now : Nat) : TickOut :=
  let r := processAccounts mgr sys.stats.total_updates now sys.monitored_accounts
  { sys := { sys with
      monitored_accounts := r.1,
      stats := { sys.stats with
        total_updates := sys.stats.total_updates + 1,
        last_update := some now } },
    frame := r.2.1,
    tradesFetched := r.2.2 }

/-- Runs `K` consecutive ticks of the monitor loop (lines 299-310, steady state:
each iteration calls `_update_all_accounts` once).  The wall-clock argument
of tick `i` is irrelevant to every claim; the pre-tick counter is passed as
`now`.  Returns the final state and, per tick in order, the accounts whose
closed-trades fetch was attempted. -/
def runTicks (mgr : Manager) :
    Nat → RealTimeMonitorSystem → RealTimeMonitorSystem × List (List Nat)
  | 0, sys => (sys, [])
  | K + 1, sys =>
      let out := sys.update_all_accounts mgr sys.stats.total_updates
      let r := runTicks mgr K out.sys
      (r.1, out.tradesFetched :: r.2)

/-- Tick indices (0-based) at which `login_id`'s closed-trades fetch was
attempted, read off a `runTicks` trace. -/
def attemptedTicksFrom (login_id : Nat) : List (List Nat) → Nat → List Nat
  | [], _ => []
  | ids :: rest, i =>
      (if login_id ∈ ids then [i] else []) ++
        attemptedTicksFrom login_id rest (i + 1)

/-- Tick indices at which `login_id`'s closed-trades fetch was attempted. -/
def attemptedTicks (login_id : Nat) (trace : List (List Nat)) : List Nat :=
  attemptedTicksFrom login_id trace 0

/- ### Definitions written from the spec's words (for refinement claims) -/

/-- Signed net volume of a position per spec §3: `+volume` when the side is
buy, `−volume` when the side is sell. -/
def Position.specSignedNetVolume (p : Position) : ℚ :=
  match p.side with
  | .buy => p.volume.getD 0
  | .sell => -(p.volume.getD 0)

/-- All position slices of the registry, flattened in registry order. -/
def RealTimeMonitorSystem.allPositions (sys : RealTimeMonitorSystem) :
    List Position :=
  (sys.monitored_accounts.map (fun kv => kv.2.positions.positions)).flatten

/-- Spec-side exposure (claim C1 / spec §4.3): for symbol `s`, the sum of
signed net volumes of all positions with symbol `s` across all monitored
accounts. -/
def specSignedExposure (sys : RealTimeMonitorSystem) (s : String) : ℚ :=
  ((sys.allPositions.filter (fun p => p.symbol.getD "" = s)).map
    Position.specSignedNetVolume).sum

/-- Unsigned flat sum of volumes for a symbol (the quantity the code's
exposure aggregation actually computes; used by the amended C1). -/
def flatVolumeSum (sys : RealTimeMonitorSystem) (s : String) : ℚ :=
  ((sys.allPositions.filter (fun p => p.symbol.getD "" = s)).map
    (fun p => p.volume.getD 0)).sum

/-- Insertion of a key into an ascending list (spec-side ordering). -/
def insortNat (x : Nat) : List Nat → List Nat
  | [] => [x]
  | y :: ys => if x ≤ y then x :: y :: ys else y :: insortNat x ys

/-- Ascending sort of the registry's key list (spec-side ordering). -/
def sortNat (l : List Nat) : List Nat :=
  l.foldr insortNat []

/-- Look up an account's monitors by login id. -/
def RealTimeMonitorSystem.lookupMonitors (sys : RealTimeMonitorSystem)
    (login_id : Nat) : Option Monitors :=
  (sys.monitored_accounts.find? (fun kv => kv.1 = login_id)).map (fun kv => kv.2)

/-- Spec-side result of the positions-by-symbol query (claim C6 / spec
§4.3): the matching positions tagged with their account id, grouped by
account id *ascending*, stable within each account. -/
def specOrderedPositionsBySymbol (sys : RealTimeMonitorSystem)
    (s : String) : List Position :=
  ((sortNat sys.keys).map (fun login_id =>
    match sys.lookupMonitors login_id with
    | some mon =>
        (mon.positions.positions.filter (fun p => p.symbol = some s)).map
          (fun p => { p with login_id := some login_id })
    | none => [])).flatten

/-- The in-place tagging `get_positions_by_symbol` performs on one account's
stored monitors: `login_id` is written into exactly the stored positions
whose symbol equals the queried one (used by the amended C5). -/
def tagStored (login_id : Nat) (s : String) (mon : Monitors) : Monitors :=
  { mon with positions := { mon.positions with
      positions := mon.positions.positions.map (fun p =>
        if p.symbol = some s then { p with login_id := some login_id }
        else p) } }

/- ### Concrete systems for counterexamples and witnesses -/

/-- Broker stub: every details read is empty, every list read is empty. -/
def emptyMgr : Manager :=
  { get_account_details := fun _ => .ok none,
    get_open_positions := fun _ => .ok [],
    get_closed_trades := fun _ => .ok [] }

/-- A buy position of volume 1 on EURUSD (spec scenario 1). -/
def posBuy1 : Position :=
  { symbol := some "EURUSD", volume := some 1, side := .buy, login_id := none }

/-- A sell position of volume 0.4 on EURUSD (spec scenario 1). -/
def posSell04 : Position :=
  { symbol := some "EURUSD", volume := some (2/5), side := .sell,
    login_id := none }

/-- Monitors for an account holding a given positions slice. -/
def monitorsWith (login_id : Nat) (ps : List Position) : Monitors :=
  { account := AccountMonitor.init login_id,
    positions := { login_id := login_id, positions := ps, last_update := none },
    trades := TradeMonitor.init login_id }

/-- One account (1001) holding `posBuy1` and `posSell04`. -/
def exposureSys : RealTimeMonitorSystem :=
  { update_interval := 5,
    monitored_accounts := [(1001, monitorsWith 1001 [posBuy1, posSell04])],
    stats := { total_updates := 0, last_update := none, errors := 0,
               monitored_count := 1 } }

/-- Account details the broker returns for the healthy account in the
failure-isolation scenario (spec scenario 4). -/
def okInfo : AccountInfo :=
  { balance := some 500, equity := some 520, margin := some 100,
    free_margin := none, margin_level := none, profit := none,
    group := none, leverage := none }

/-- Broker for the failure-isolation scenario: empty details for account 1,
valid details for every other account. -/
def isolationMgr : Manager :=
  { get_account_details := fun login_id =>
      if login_id = 1 then .ok none else .ok (some okInfo),
    get_open_positions := fun _ => .ok [],
    get_closed_trades := fun _ => .ok [] }

/-- Registry with accounts 1 and 2 freshly added. -/
def twoAccountSys : RealTimeMonitorSystem :=
  ((RealTimeMonitorSystem.init 5).add_account 1).add_account 2

/-- Registry where account 20 was added before account 10, each holding one
position on symbol X (insertion order differs from ascending id order). -/
def outOfOrderSys : RealTimeMonitorSystem :=
  { update_interval := 5,
    monitored_accounts :=
      [(20, monitorsWith 20
          [{ symbol := some "X", volume := some 2, side := .buy,
             login_id := none }]),
       (10, monitorsWith 10
          [{ symbol := some "X", volume := some 3, side := .buy,
             login_id := none }])],
    stats := { total_updates := 0, last_update := none, errors := 0,
               monitored_count := 2 } }

/-- A registry mutation issued by a subscriber or control caller. -/
inductive RegOp where
  | add (id : Nat)
  | remove (id : Nat)

/-- Apply one registry mutation. -/
def applyRegOp (sys : RealTimeMonitorSystem) : RegOp → RealTimeMonitorSystem
  | .add id => sys.add_account id
  | .remove id => sys.remove_account id

/-- Apply a sequence of registry mutations in order. -/
def applyRegOps (ops : List RegOp) (sys : RealTimeMonitorSystem) :
    RealTimeMonitorSystem :=
  ops.foldl applyRegOp sys

/-!
## Claim theorems
-/

/- ### C8: margin level formula -/

/-- C8. For all equity and margin, `calculate_margin_level(equity, margin)`
returns `100 · equity / margin` when `margin ≠ 0`, and `0` when
`margin = 0`. -/
theorem c8_calculate_margin_level (equity margin : ℚ) :
    (margin ≠ 0 → calculate_margin_level equity margin = 100 * equity / margin) ∧
    (margin = 0 → calculate_margin_level equity margin = 0) := by
  constructor
  · intro h
    rw [calculate_margin_level, if_neg h]
    field_simp
    ring
  · intro h
    rw [calculate_margin_level, if_pos h]

/-- Witness for C8 at equity 520, margin 100 and at margin 0. -/
theorem c8_calculate_margin_level_witness :
    ((100 : ℚ) ≠ 0 ∧ calculate_margin_level 520 100 = 100 * 520 / 100) ∧
    calculate_margin_level 520 0 = 0 :=
  ⟨⟨by norm_num, (c8_calculate_margin_level 520 100).1 (by norm_num)⟩,
   (c8_calculate_margin_level 520 0).2 rfl⟩

/- ### C7: registry idempotence -/

/-- C7. Adding the same id twice yields the same registry state as adding it
once, and removing an absent id leaves the state unchanged.  (Neither
operation takes the broker manager as an input at all, so neither performs
broker I/O.) -/
theorem c7_registry_idempotence (sys : RealTimeMonitorSystem) (id : Nat) :
    (sys.add_account id).add_account id = sys.add_account id ∧
    (sys.contains id = false → sys.remove_account id = sys) := by
  constructor
  · by_cases h : sys.contains id
    · simp [RealTimeMonitorSystem.add_account, h]
    · have h2 : (sys.add_account id).contains id = true := by
        rw [RealTimeMonitorSystem.add_account, if_neg h]
        simp [RealTimeMonitorSystem.contains]
      conv_lhs => rw [RealTimeMonitorSystem.add_account]
      rw [if_pos h2]
  · intro h
    rw [RealTimeMonitorSystem.remove_account, h]
    simp

/-- Witness for C7: double-add of 7 to a fresh registry collapses, and
removing 7 from the fresh (empty) registry is a no-op. -/
theorem c7_registry_idempotence_witness :
    (((RealTimeMonitorSystem.init 5).add_account 7).add_account 7 =
      (RealTimeMonitorSystem.init 5).add_account 7) ∧
    ((RealTimeMonitorSystem.init 5).remove_account 7 =
      RealTimeMonitorSystem.init 5) :=
  ⟨(c7_registry_idempotence (RealTimeMonitorSystem.init 5) 7).1,
   (c7_registry_idempotence (RealTimeMonitorSystem.init 5) 7).2 (by decide)⟩

/- ### C10: monitored_count invariant -/

/-- The `monitored_count` stat tracks the registry size across one mutation. -/
theorem applyRegOp_count (sys : RealTimeMonitorSystem) (op : RegOp)
    (h : sys.stats.monitored_count = sys.monitored_accounts.length) :
    (applyRegOp sys op).stats.monitored_count =
      (applyRegOp sys op).monitored_accounts.length := by
  cases op with
  | add id =>
      by_cases hc : sys.contains id <;>
        simp [applyRegOp, RealTimeMonitorSystem.add_account, hc, h]
  | remove id =>
      by_cases hc : sys.contains id <;>
        simp [applyRegOp, RealTimeMonitorSystem.remove_account, hc, h]

/-- The `monitored_count` stat tracks the registry size across any mutation
sequence. -/
theorem applyRegOps_count (ops : List RegOp) :
    ∀ sys : RealTimeMonitorSystem,
      sys.stats.monitored_count = sys.monitored_accounts.length →
      (applyRegOps ops sys).stats.monitored_count =
        (applyRegOps ops sys).monitored_accounts.length := by
  induction ops with
  | nil => intro sys h; exact h
  | cons op rest ih =>
      intro sys h
      exact ih (applyRegOp sys op) (applyRegOp_count sys op h)

/-- C10. Starting from a freshly constructed engine, after every
interleaving of `add_account` and `remove_account` calls the stats field
`monitored_count` equals the number of accounts currently in the
registry. -/
theorem c10_monitored_count (update_interval : Nat) (ops : List RegOp) :
    (applyRegOps ops (RealTimeMonitorSystem.init update_interval)).stats.monitored_count =
      (applyRegOps ops (RealTimeMonitorSystem.init update_interval)).monitored_accounts.length :=
  applyRegOps_count ops (RealTimeMonitorSystem.init update_interval) rfl

/- ### C3: details fetch semantics -/

/-- C3. For every account record and every details fetch: on success every
detail field is overwritten from the fetched mapping, `status` becomes
`"active"` and `last_update` becomes now; on an empty result `status`
becomes `"unavailable"` and everything else is unchanged; on an RPC
exception `status` becomes `"error"` and everything else is unchanged. -/
theorem c3_details_fetch (a : AccountMonitor) (now : Nat) :
    (∀ info : AccountInfo,
      (a.update (.ok (some info)) now).1 =
        { login_id := a.login_id,
          balance := info.balance.getD 0,
          equity := info.equity.getD 0,
          margin := info.margin.getD 0,
          free_margin := info.free_margin.getD 0,
          margin_level := info.margin_level.getD 0,
          profit := info.profit.getD 0,
          last_update := some now,
          status := "active",
          group := info.group.getD "",
          leverage := info.leverage.getD 0 }) ∧
    ((a.update (.ok none) now).1 = { a with status := "unavailable" } ∧
      (a.update (.ok none) now).2 = none) ∧
    ((a.update .exn now).1 = { a with status := "error" } ∧
      (a.update .exn now).2 = none) :=
  ⟨fun _ => rfl, ⟨rfl, rfl⟩, ⟨rfl, rfl⟩⟩

/- ### C1: exposure volume -/

/-- Unfolding `PositionMonitor.get_total_volume_by_symbol`'s accumulator
loop: read at a symbol, the defaultdict holds the initial value plus the sum
of volumes of the positions grouped under that symbol. -/
theorem volume_by_symbol_foldl (s : String) :
    ∀ (l : List Position) (m : String → ℚ),
      l.foldl
        (fun m pos => fun t =>
          if pos.symbol.getD "" = t then m t + pos.volume.getD 0 else m t)
        m s =
      m s + ((l.filter (fun p => p.symbol.getD "" = s)).map
        (fun p => p.volume.getD 0)).sum := by
  intro l
  induction l with
  | nil => intro m; simp
  | cons p rest ih =>
      intro m
      rw [List.foldl_cons, ih]
      by_cases h : p.symbol.getD "" = s
      · rw [if_pos h, List.filter_cons_of_pos (by simpa using h),
            List.map_cons, List.sum_cons]
        ring
      · rw [if_neg h, List.filter_cons_of_neg (by simpa using h)]

/-- Reading `get_total_volume_by_symbol` at a symbol is the sum of the raw volumes
of the positions grouped under that symbol. -/
theorem get_total_volume_by_symbol_eq (pm : PositionMonitor) (s : String) :
    pm.get_total_volume_by_symbol s =
      ((pm.positions.filter (fun p => p.symbol.getD "" = s)).map
        (fun p => p.volume.getD 0)).sum := by
  rw [PositionMonitor.get_total_volume_by_symbol, volume_by_symbol_foldl]
  simp

/-- Unfolding the exposure accumulator loop pointwise. -/
theorem exposure_foldl (s : String) :
    ∀ (l : List (Nat × Monitors)) (m : String → ℚ),
      l.foldl
        (fun m kv => fun s => m s + kv.2.positions.get_total_volume_by_symbol s)
        m s =
      m s + (l.map (fun kv => kv.2.positions.get_total_volume_by_symbol s)).sum := by
  intro l
  induction l with
  | nil => intro m; simp
  | cons kv rest ih =>
      intro m
      rw [List.foldl_cons, ih]
      simp only [List.map_cons, List.sum_cons]
      ring

/-- C1 amended: for every symbol S, the `volume` field of
`get_total_exposure_by_symbol()[S]` equals the sum of the *raw, unsigned*
volumes of all positions grouped under symbol S across all monitored
accounts — the position's side is not consulted. -/
theorem c1_amended_exposure_unsigned (sys : RealTimeMonitorSystem)
    (s : String) :
    sys.get_total_exposure_volume s = flatVolumeSum sys s := by
  rw [RealTimeMonitorSystem.get_total_exposure_volume, exposure_foldl]
  rw [flatVolumeSum, RealTimeMonitorSystem.allPositions]
  have h : ∀ l : List (Nat × Monitors),
      (l.map (fun kv => kv.2.positions.get_total_volume_by_symbol s)).sum =
        (((l.map (fun kv => kv.2.positions.positions)).flatten.filter
          (fun p => p.symbol.getD "" = s)).map (fun p => p.volume.getD 0)).sum := by
    intro l
    induction l with
    | nil => simp
    | cons kv rest ih =>
        rw [List.map_cons, List.sum_cons, ih, List.map_cons,
            List.flatten_cons, List.filter_append, List.map_append,
            List.sum_append, get_total_volume_by_symbol_eq]
  rw [h]
  simp

/-- C1 counterexample (spec scenario 1): with one account holding a buy of
volume 1 and a sell of volume 0.4 on EURUSD, the code reports exposure
volume 1.4 while the claim's signed sum is 0.6. -/
theorem c1_counterexample :
    exposureSys.get_total_exposure_volume "EURUSD" ≠
      specSignedExposure exposureSys "EURUSD" := by
  have h1 : exposureSys.get_total_exposure_volume "EURUSD" = 7/5 := by
    simp [exposureSys, RealTimeMonitorSystem.get_total_exposure_volume,
          monitorsWith, PositionMonitor.get_total_volume_by_symbol,
          posBuy1, posSell04]
    norm_num
  have h2 : specSignedExposure exposureSys "EURUSD" = 3/5 := by
    simp [specSignedExposure, RealTimeMonitorSystem.allPositions,
          exposureSys, monitorsWith, posBuy1, posSell04,
          Position.specSignedNetVolume]
    norm_num
  rw [h1, h2]
  norm_num

/- ### C5 / C6: the positions-by-symbol query -/

/-- State left behind by the positions-by-symbol traversal: every stored
position whose symbol matches has its `login_id` key set to its account's
id; everything else is untouched. -/
theorem positionsBySymbolAux_state (s : String) :
    ∀ l : List (Nat × Monitors),
      (positionsBySymbolAux s l).2 =
        l.map (fun kv => (kv.1, tagStored kv.1 s kv.2)) := by
  intro l
  induction l with
  | nil => rfl
  | cons kv rest ih =>
      obtain ⟨login_id, mon⟩ := kv
      simp only [positionsBySymbolAux, List.map_cons, ih, tagStored]

/-- Result returned by the positions-by-symbol traversal: per registry entry
in stored order, the matching positions tagged with the account id. -/
theorem positionsBySymbolAux_result (s : String) :
    ∀ l : List (Nat × Monitors),
      (positionsBySymbolAux s l).1 =
        (l.map (fun kv =>
          (kv.2.positions.positions.filter (fun p => p.symbol = some s)).map
            (fun p => { p with login_id := some kv.1 }))).flatten := by
  intro l
  induction l with
  | nil => rfl
  | cons kv rest ih =>
      obtain ⟨login_id, mon⟩ := kv
      simp only [positionsBySymbolAux, List.map_cons, List.flatten_cons, ih,
                 PositionMonitor.get_positions_by_symbol]

/-- C5 amended: `get_total_exposure_by_symbol` is side-effect-free, but
`get_positions_by_symbol(s)` writes the owning account's id into the
`login_id` key of every stored position whose symbol equals `s` (all other
stored state, including non-matching positions and all other fields, is
unchanged). -/
theorem c5_amended_query_effects (sys : RealTimeMonitorSystem) (s : String) :
    (sys.get_total_exposure_by_symbol).2 = sys ∧
    (sys.get_positions_by_symbol s).2 =
      { sys with monitored_accounts :=
          sys.monitored_accounts.map (fun kv => (kv.1, tagStored kv.1 s kv.2)) } := by
  refine ⟨rfl, ?_⟩
  show { sys with monitored_accounts := (positionsBySymbolAux s sys.monitored_accounts).2 } = _
  rw [positionsBySymbolAux_state]

/-- C5 counterexample: on a registry whose stored EURUSD positions carry no
`login_id` key, `get_positions_by_symbol("EURUSD")` leaves the registry
changed — the stored entries now carry `login_id`. -/
theorem c5_counterexample :
    (exposureSys.get_positions_by_symbol "EURUSD").2 ≠ exposureSys := by
  intro h
  have h2 := congrArg (fun sys : RealTimeMonitorSystem =>
    sys.monitored_accounts.map (fun kv =>
      kv.2.positions.positions.map (fun p => p.login_id))) h
  simp [exposureSys, RealTimeMonitorSystem.get_positions_by_symbol,
        positionsBySymbolAux, monitorsWith, posBuy1, posSell04,
        PositionMonitor.get_positions_by_symbol] at h2

/-- C6 amended: `get_positions_by_symbol(s)` returns exactly the positions
whose symbol key equals `s` across all monitored accounts, each tagged with
its account identifier, grouped by account in *registry insertion order*
(the order the accounts were added), stable within each account. -/
theorem c6_amended_positions_by_symbol (sys : RealTimeMonitorSystem)
    (s : String) :
    (sys.get_positions_by_symbol s).1 =
      (sys.monitored_accounts.map (fun kv =>
        (kv.2.positions.positions.filter (fun p => p.symbol = some s)).map
          (fun p => { p with login_id := some kv.1 }))).flatten := by
  show (positionsBySymbolAux s sys.monitored_accounts).1 = _
  rw [positionsBySymbolAux_result]

/-- C6 counterexample: with account 20 registered before account 10, the
query returns account 20's positions first — not grouped by account id
ascending as the claim states. -/
theorem c6_counterexample :
    (outOfOrderSys.get_positions_by_symbol "X").1 ≠
      specOrderedPositionsBySymbol outOfOrderSys "X" := by
  intro h
  have h2 := congrArg (fun l : List Position => l.map (fun p => p.login_id)) h
  simp [outOfOrderSys, RealTimeMonitorSystem.get_positions_by_symbol,
        positionsBySymbolAux, monitorsWith,
        PositionMonitor.get_positions_by_symbol,
        specOrderedPositionsBySymbol, sortNat, insortNat,
        RealTimeMonitorSystem.keys, RealTimeMonitorSystem.lookupMonitors] at h2

/- ### C2: the errors counter -/

/-- C2 amended: a tick never changes `stats['errors']`.  Every broker
failure (empty result or raised exception, in any of the three
sub-operations, for any account) is caught inside the monitor `update`
methods, so the `except` clause in `_update_all_accounts` — the only place
a refresh failure could be counted — is never reached, and the callback
handler catches without counting. -/
theorem c2_amended_errors_unchanged (sys : RealTimeMonitorSystem)
    (mgr : Manager) (now : Nat) :
    (sys.update_all_accounts mgr now).sys.stats.errors = sys.stats.errors :=
  rfl

/-- C2 counterexample (spec scenario 4): broker returns empty details for
account 1 and valid details for account 2.  After the tick, account 1 is
`"unavailable"` and account 2 is `"active"` — the claim's scenario — yet the
errors counter did *not* increment by 1: it is unchanged. -/
theorem c2_counterexample :
    ((twoAccountSys.update_all_accounts isolationMgr 0).sys.stats.errors ≠
      twoAccountSys.stats.errors + 1) ∧
    ((twoAccountSys.update_all_accounts isolationMgr 0).sys.lookupMonitors 1).map
      (fun m => m.account.status) = some "unavailable" ∧
    ((twoAccountSys.update_all_accounts isolationMgr 0).sys.lookupMonitors 2).map
      (fun m => m.account.status) = some "active" := by
  refine ⟨?_, ?_, ?_⟩ <;>
    simp [twoAccountSys, isolationMgr, RealTimeMonitorSystem.update_all_accounts,
          processAccounts, refreshOne, AccountMonitor.update,
          PositionMonitor.update, TradeMonitor.update,
          RealTimeMonitorSystem.add_account, RealTimeMonitorSystem.contains,
          RealTimeMonitorSystem.init, Monitors.init, AccountMonitor.init,
          PositionMonitor.init, TradeMonitor.init, okInfo,
          RealTimeMonitorSystem.lookupMonitors, List.find?]

/- ### C9: frame entries track details-fetch success -/

/-- A frame entry produced by `refreshOne` carries the account monitor's
login id. -/
theorem refreshOne_entry_login (mgr : Manager) (tu now k : Nat)
    (mon : Monitors) :
    ∀ e, (refreshOne mgr tu now k mon).2.1 = some e →
      e.account.login_id = mon.account.login_id := by
  intro e he
  rcases hd : mgr.get_account_details k with v | _
  · rcases v with _ | info
    · simp [refreshOne, AccountMonitor.update, hd] at he
    · simp only [refreshOne, AccountMonitor.update, hd, Option.map_some'] at he
      injection he with he
      rw [← he]
      rfl
  · simp [refreshOne, AccountMonitor.update, hd] at he

/-- The body `refreshOne` produces a frame entry exactly when the details fetch
returned a truthy mapping. -/
theorem refreshOne_entry_isSome (mgr : Manager) (tu now k : Nat)
    (mon : Monitors) :
    ((refreshOne mgr tu now k mon).2.1).isSome = true ↔
      ∃ info, mgr.get_account_details k = .ok (some info) := by
  rcases hd : mgr.get_account_details k with v | _
  · rcases v with _ | info
    · simp [refreshOne, AccountMonitor.update, hd]
    · simp [refreshOne, AccountMonitor.update, hd]
  · simp [refreshOne, AccountMonitor.update, hd]

/-- Membership in the tick's frame list, over the registry traversal: there
is an entry for `lid` iff `lid` is a registry key whose details fetch
returned a truthy mapping. -/
theorem processAccounts_frame_mem (mgr : Manager) (tu now : Nat) :
    ∀ l : List (Nat × Monitors),
      (∀ kv ∈ l, kv.2.account.login_id = kv.1) →
      ∀ lid : Nat,
        (∃ e ∈ (processAccounts mgr tu now l).2.1, e.account.login_id = lid) ↔
          (lid ∈ l.map Prod.fst ∧
            ∃ info, mgr.get_account_details lid = .ok (some info)) := by
  intro l
  induction l with
  | nil => intro _ lid; simp [processAccounts]
  | cons kv rest ih =>
      intro hwf lid
      obtain ⟨k, mon⟩ := kv
      have hk : mon.account.login_id = k := hwf (k, mon) (by simp)
      have hrest := ih (fun kv hkv => hwf kv (by simp [hkv])) lid
      rcases hr : (refreshOne mgr tu now k mon).2.1 with _ | e
      · have hnone : ¬ ∃ info, mgr.get_account_details k = .ok (some info) := by
          rw [← refreshOne_entry_isSome mgr tu now k mon, hr]
          simp
        simp only [processAccounts, hr, List.map_cons, List.mem_cons]
        rw [hrest]
        constructor
        · rintro ⟨hmem, hinfo⟩
          exact ⟨Or.inr hmem, hinfo⟩
        · rintro ⟨hmem | hmem, hinfo⟩
          · exact absurd (hmem ▸ hinfo) hnone
          · exact ⟨hmem, hinfo⟩
      · have he_login : e.account.login_id = k :=
          (refreshOne_entry_login mgr tu now k mon e hr).trans hk
        have hsome : ∃ info, mgr.get_account_details k = .ok (some info) := by
          rw [← refreshOne_entry_isSome mgr tu now k mon, hr]
          simp
        simp only [processAccounts, hr, List.map_cons, List.mem_cons]
        constructor
        · rintro ⟨e', he', hlog⟩
          rcases he' with he' | he'
          · subst he'
            have hkl : k = lid := he_login.symm.trans hlog
            exact ⟨Or.inl hkl.symm, hkl ▸ hsome⟩
          · exact (hrest.mp ⟨e', he', hlog⟩).imp Or.inr id
        · rintro ⟨hmem | hmem, hinfo⟩
          · exact ⟨e, Or.inl rfl, he_login.trans hmem.symm⟩
          · obtain ⟨e', he', hlog⟩ := hrest.mpr ⟨hmem, hinfo⟩
            exact ⟨e', Or.inr he', hlog⟩

/-- C9. For every tick, the update frame list passed to subscriber callbacks
contains an entry for `lid` exactly when `lid` is monitored and its details
fetch returned a truthy mapping this tick: an account whose details fetch
returned empty or raised contributes no entry, regardless of its positions
and trades fetches. -/
theorem c9_frame_iff_details_success (sys : RealTimeMonitorSystem)
    (mgr : Manager) (now lid : Nat)
    (hwf : ∀ kv ∈ sys.monitored_accounts, kv.2.account.login_id = kv.1) :
    (∃ e ∈ (sys.update_all_accounts mgr now).frame, e.account.login_id = lid) ↔
      (lid ∈ sys.keys ∧
        ∃ info, mgr.get_account_details lid = .ok (some info)) :=
  processAccounts_frame_mem mgr sys.stats.total_updates now
    sys.monitored_accounts hwf lid

/-- Witness for C9 on the failure-isolation scenario: account 2 (details
succeed) has a frame entry; the well-formedness hypothesis is discharged by
computation. -/
theorem c9_frame_iff_details_success_witness :
    (∃ e ∈ (twoAccountSys.update_all_accounts isolationMgr 0).frame,
        e.account.login_id = 2) ↔
      (2 ∈ twoAccountSys.keys ∧
        ∃ info, isolationMgr.get_account_details 2 = .ok (some info)) :=
  c9_frame_iff_details_success twoAccountSys isolationMgr 0 2 (by decide)

/- ### C4: closed-trades cadence -/

/-- The closed-trades fetch is attempted exactly when the pre-tick
`total_updates` counter is divisible by 5, for every account alike. -/
theorem refreshOne_attempted (mgr : Manager) (tu now k : Nat)
    (mon : Monitors) :
    (refreshOne mgr tu now k mon).2.2 = if tu % 5 = 0 then true else false := by
  by_cases h : tu % 5 = 0 <;> simp [refreshOne, h]

/-- The tick traversal preserves the registry's key list. -/
theorem processAccounts_keys (mgr : Manager) (tu now : Nat) :
    ∀ l : List (Nat × Monitors),
      ((processAccounts mgr tu now l).1).map Prod.fst = l.map Prod.fst := by
  intro l
  induction l with
  | nil => rfl
  | cons kv rest ih =>
      obtain ⟨k, mon⟩ := kv
      simp [processAccounts, ih]

/-- Accounts whose closed-trades fetch is attempted in one tick: all of them
when the pre-tick counter is divisible by 5, none otherwise. -/
theorem processAccounts_att (mgr : Manager) (tu now : Nat) :
    ∀ l : List (Nat × Monitors),
      (processAccounts mgr tu now l).2.2 =
        if tu % 5 = 0 then l.map Prod.fst else [] := by
  intro l
  induction l with
  | nil => by_cases h : tu % 5 = 0 <;> simp [processAccounts, h]
  | cons kv rest ih =>
      obtain ⟨k, mon⟩ := kv
      by_cases h : tu % 5 = 0 <;>
        simp [processAccounts, ih, refreshOne_attempted, h]

/-- A tick preserves the key list. -/
theorem update_all_accounts_keys (sys : RealTimeMonitorSystem)
    (mgr : Manager) (now : Nat) :
    (sys.update_all_accounts mgr now).sys.keys = sys.keys :=
  processAccounts_keys mgr sys.stats.total_updates now sys.monitored_accounts

/-- A tick increments `total_updates` by one. -/
theorem update_all_accounts_total (sys : RealTimeMonitorSystem)
    (mgr : Manager) (now : Nat) :
    (sys.update_all_accounts mgr now).sys.stats.total_updates =
      sys.stats.total_updates + 1 :=
  rfl

/-- Which accounts had a closed-trades fetch attempted in one tick. -/
theorem update_all_accounts_tradesFetched (sys : RealTimeMonitorSystem)
    (mgr : Manager) (now : Nat) :
    (sys.update_all_accounts mgr now).tradesFetched =
      if sys.stats.total_updates % 5 = 0 then sys.keys else [] :=
  processAccounts_att mgr sys.stats.total_updates now sys.monitored_accounts

/-- Peeling one tick off the expected attempted-tick list. -/
theorem range_filter_shift (c i K : Nat) :
    ((List.range (K + 1)).filter (fun t => decide ((c + t) % 5 = 0))).map
        (fun t => t + i) =
      (if c % 5 = 0 then [i] else []) ++
        ((List.range K).filter (fun t => decide ((c + 1 + t) % 5 = 0))).map
          (fun t => t + (i + 1)) := by
  rw [List.range_succ_eq_map, List.filter_cons, List.filter_map]
  have hq : (List.range K).filter
        ((fun t => decide ((c + t) % 5 = 0)) ∘ Nat.succ) =
      (List.range K).filter (fun t => decide ((c + 1 + t) % 5 = 0)) := by
    refine List.filter_congr ?_
    intro t _
    have ht : c + Nat.succ t = c + 1 + t := by omega
    simp [Function.comp, ht]
  rw [hq]
  have hmap : (((List.range K).filter
        (fun t => decide ((c + 1 + t) % 5 = 0))).map Nat.succ).map
        (fun t => t + i) =
      ((List.range K).filter (fun t => decide ((c + 1 + t) % 5 = 0))).map
        (fun t => t + (i + 1)) := by
    rw [List.map_map]
    refine List.map_eq_map_iff.mpr ?_
    intro t _
    simp [Function.comp]
    omega
  by_cases h5 : c % 5 = 0
  · rw [if_pos (by simp [h5]), if_pos h5, List.map_cons, hmap]
    simp
  · rw [if_neg (by simp [h5]), if_neg h5, hmap]
    simp

/-- Over a run of `K` ticks, an account present in the registry has its
closed-trades fetch attempted exactly on the ticks whose pre-tick counter is
divisible by 5 (indices shifted by the accumulator `i`). -/
theorem runTicks_attempted (mgr : Manager) (lid : Nat) :
    ∀ (K : Nat) (sys : RealTimeMonitorSystem) (i : Nat), lid ∈ sys.keys →
      attemptedTicksFrom lid (runTicks mgr K sys).2 i =
        ((List.range K).filter
          (fun t => (sys.stats.total_updates + t) % 5 = 0)).map
          (fun t => t + i) := by
  intro K
  induction K with
  | zero => intro sys i _; simp [runTicks, attemptedTicksFrom]
  | succ K ih =>
      intro sys i hmem
      have hkeys : (sys.update_all_accounts mgr sys.stats.total_updates).sys.keys
          = sys.keys := update_all_accounts_keys sys mgr sys.stats.total_updates
      have hmem2 : lid ∈ (sys.update_all_accounts mgr
          sys.stats.total_updates).sys.keys := by rw [hkeys]; exact hmem
      simp only [runTicks, attemptedTicksFrom]
      rw [ih _ (i + 1) hmem2]
      rw [update_all_accounts_tradesFetched]
      simp only [update_all_accounts_total]
      rw [range_filter_shift]
      by_cases h5 : sys.stats.total_updates % 5 = 0
      · rw [if_pos h5, if_pos h5, if_pos hmem]
      · rw [if_neg h5, if_neg h5, if_neg (List.not_mem_nil lid)]

/-- Counting the multiples of 5 below `K`: exactly `⌈K/5⌉`. -/
theorem range_filter_mod5_length (K : Nat) :
    ((List.range K).filter (fun t => t % 5 = 0)).length = (K + 4) / 5 := by
  induction K with
  | zero => rfl
  | succ K ih =>
      by_cases h : K % 5 = 0 <;>
        simp [List.range_succ, List.filter_append, h, ih] <;>
        omega

/-- C4. Over `K` consecutive ticks starting with `total_updates = 0`, an
account present in the registry throughout has its closed-trades fetch
attempted exactly on the ticks whose pre-tick counter is `≡ 0 (mod 5)`, for
a total of `⌈K/5⌉ = (K+4)/5` attempts; on every other tick the previously
stored trades slice is reused (the trades monitor is untouched). -/
theorem c4_trades_cadence (sys : RealTimeMonitorSystem) (mgr : Manager)
    (K lid : Nat) (h0 : sys.stats.total_updates = 0)
    (hmem : lid ∈ sys.keys) :
    attemptedTicks lid (runTicks mgr K sys).2 =
      (List.range K).filter (fun t => t % 5 = 0) ∧
    (attemptedTicks lid (runTicks mgr K sys).2).length = (K + 4) / 5 ∧
    (∀ tu now k mon, tu % 5 ≠ 0 →
      ((refreshOne mgr tu now k mon).1).trades = mon.trades) := by
  have h1 : attemptedTicks lid (runTicks mgr K sys).2 =
      (List.range K).filter (fun t => t % 5 = 0) := by
    rw [attemptedTicks, runTicks_attempted mgr lid K sys 0 hmem]
    simp [h0]
  refine ⟨h1, ?_, ?_⟩
  · rw [h1, range_filter_mod5_length]
  · intro tu now k mon h
    simp [refreshOne, h]

/-- Witness for C4: eleven ticks over a two-account registry with the
all-empty broker; the hypotheses (counter starts at 0, account 1 present)
are discharged by computation. -/
theorem c4_trades_cadence_witness :
    attemptedTicks 1 (runTicks emptyMgr 11 twoAccountSys).2 =
      (List.range 11).filter (fun t => t % 5 = 0) ∧
    (attemptedTicks 1 (runTicks emptyMgr 11 twoAccountSys).2).length =
      (11 + 4) / 5 ∧
    (∀ tu now k mon, tu % 5 ≠ 0 →
      ((refreshOne emptyMgr tu now k mon).1).trades = mon.trades) :=
  c4_trades_cadence twoAccountSys emptyMgr 11 1 (by decide) (by decide)
